import Mathlib

/-!
A shallow embedding of the dialogue state machine and slot-extraction
pipeline of the Schedula voice-scheduling assistant
(`app/nlu/validators.py`, `app/nlu/extractor.py`, `app/graph.py`,
`app/workflow.py`, `app/state.py`), together with theorems settling the
specification's claims about it.

Modelling conventions:
* Python strings are Lean `String` (ASCII fragment; `str.lower`, `str.strip`
  and the regex classes `\s` are modelled on their ASCII behaviour).
* Python `datetime` is `PyDateTime`: a wall-clock value in seconds plus an
  optional fixed UTC offset (`tz = none` models a naive datetime).
  Comparing an aware with a naive datetime raises `TypeError` in Python;
  the comparison is therefore `Except`-valued here.
* Fallible Python code is embedded in `Except PyErr`; an uncaught Python
  exception is `Except.error`.
* External collaborators (the Groq understanding provider, `dateparser`,
  the zoneinfo database, `strftime`, the response generator and the Google
  calendar service) are supplied as an `Oracle` record of functions; the
  in-scope retry / parsing / validation / merging / routing logic around
  them is embedded from the source.
-/

/-! ## Preliminaries -/

instance exceptDecEq {ε α : Type} [DecidableEq ε] [DecidableEq α] :
    DecidableEq (Except ε α) := fun x y =>
  match x, y with
  | .ok a, .ok b =>
    if h : a = b then .isTrue (by rw [h])
    else .isFalse (by intro hc; cases hc; exact h rfl)
  | .ok _, .error _ => .isFalse (by intro hc; cases hc)
  | .error _, .ok _ => .isFalse (by intro hc; cases hc)
  | .error a, .error b =>
    if h : a = b then .isTrue (by rw [h])
    else .isFalse (by intro hc; cases hc; exact h rfl)

/-! ## Python string primitives -/

/-- ASCII whitespace as recognised by Python `str.strip()` and by the regex
class `\s`: space, tab, newline, carriage return, vertical tab, form feed. -/
def pyWs (c : Char) : Bool :=
  c = ' ' || c = '\t' || c = '\n' || c = '\r' || c = '\x0b' || c = '\x0c'

/-- Python `str.lower()` (ASCII fragment). -/
def pyLower (s : String) : String :=
  String.mk (s.toList.map Char.toLower)

/-- Drop leading Python whitespace from a char list. -/
def dropWsLeft : List Char → List Char
  | [] => []
  | c :: cs => if pyWs c then dropWsLeft cs else c :: cs

/-- Python `str.strip()` with no argument (ASCII fragment). -/
def pyStrip (s : String) : String :=
  String.mk ((dropWsLeft ((dropWsLeft s.toList).reverse)).reverse)

/-- The test `leadsWith n h` is true when `n` occurs at the start of `h`. -/
def leadsWith : List Char → List Char → Bool
  | [], _ => true
  | _ :: _, [] => false
  | a :: as, b :: bs => a = b && leadsWith as bs

/-- Python substring containment `needle in hay` on char lists. -/
def hasSub (needle : List Char) : List Char → Bool
  | [] => leadsWith needle []
  | c :: t => leadsWith needle (c :: t) || hasSub needle t

/-- Python `needle in hay` for strings. -/
def pyInStr (needle hay : String) : Bool :=
  hasSub needle.toList hay.toList

/-- Python truthiness of an `Optional[str]`: `None` and `""` are falsy. -/
def optStrTruthy : Option String → Bool
  | none => false
  | some s => s ≠ ""

/-- Python `a or b` for an `Optional[str]` left operand. -/
def pyOrStr (a : Option String) (b : String) : String :=
  match a with
  | some s => if s ≠ "" then s else b
  | none => b

/-- Index of the first occurrence of `c` in `s`, or `-1`: Python `str.find`. -/
def pyFind (s : String) (c : Char) : Int :=
  match s.toList.indexOf? c with
  | some i => (i : Int)
  | none => -1

/-- Index of the last occurrence of `c` in `s`, or `-1`: Python `str.rfind`. -/
def pyRfind (s : String) (c : Char) : Int :=
  match s.toList.reverse.indexOf? c with
  | some i => ((s.toList.length - 1 - i : Nat) : Int)
  | none => -1

/-- Python slice `s[a:b]` for `0 ≤ a ≤ b ≤ len(s)` (the only shape the
embedded code uses). -/
def pySlice (s : String) (a b : Int) : String :=
  String.mk ((s.toList.drop a.toNat).take (b.toNat - a.toNat))

/-! ## Python datetimes

`wall` is the wall-clock reading in seconds; `tz` is the fixed UTC offset in
seconds of an aware datetime, `none` for a naive one. -/

structure PyDateTime where
  wall : Int
  tz : Option Int
deriving DecidableEq, Repr

/-- The instant (seconds since the epoch, UTC) of an aware `PyDateTime`. -/
def PyDateTime.instant (d : PyDateTime) : Int :=
  d.wall - d.tz.getD 0

/-- Python `d1 <= d2` on datetimes: naive/aware mixes raise `TypeError`. -/
def pyDtLe (a b : PyDateTime) : Except Unit Bool :=
  match a.tz, b.tz with
  | none, none => .ok (decide (a.wall ≤ b.wall))
  | some x, some y => .ok (decide (a.wall - x ≤ b.wall - y))
  | _, _ => .error ()

/-- Python `d1 > d2` on datetimes: naive/aware mixes raise `TypeError`. -/
def pyDtGt (a b : PyDateTime) : Except Unit Bool :=
  match a.tz, b.tz with
  | none, none => .ok (decide (b.wall < a.wall))
  | some x, some y => .ok (decide (b.wall - y < a.wall - x))
  | _, _ => .error ()

/-- Python `d + timedelta(days=n)`: wall-clock addition, offset kept. -/
def pyDtAddDays (d : PyDateTime) (n : Int) : PyDateTime :=
  { d with wall := d.wall + n * 86400 }

/-- Python `d.replace(tzinfo=timezone.utc)`. -/
def pyDtStampUtc (d : PyDateTime) : PyDateTime :=
  { d with tz := some 0 }

/-! ## Slot validators — `app/nlu/validators.py` -/

/-- A character matched by the pattern `[A-Za-z\s\-']` of
`validators.py:15`. -/
def isNameChar (c : Char) : Bool :=
  (('A' ≤ c && c ≤ 'Z') || ('a' ≤ c && c ≤ 'z')) || pyWs c || c = '-' ||
    c = Char.ofNat 39

/-- The affirmation/negation denylist of `validators.py:19`. -/
def nameBlacklist : List String :=
  ["yes", "yeah", "ok", "okay", "no", "sure"]

/-- Embeds `validate_name` — `validators.py:6-22`. Note the length guard is
embedded exactly as written in the source: `len(name)>2 or len(name)> 50`. -/
def validate_name (name : Option String) : Option String :=
  match name with
  | none => none
  | some n =>
    if n = "" then none
    else if n.length > 2 || n.length > 50 then none
    else if !(n.toList.all isNameChar) then none
    else if pyLower n ∈ nameBlacklist then none
    else some n

/-- The prompt-injection marker phrases of `validators.py:66-71`. -/
def forbiddenPhrases : List String :=
  ["ignore previous", "system message", "assistant:", "user:"]

/-- Embeds `validate_meeting_title` — `validators.py:55-77`. -/
def validate_meeting_title (title : Option String) : Option String :=
  match title with
  | none => none
  | some t0 =>
    if t0 = "" then none
    else
      let t := pyStrip t0
      if t.length < 3 || t.length > 100 then none
      else if forbiddenPhrases.any (fun p => pyInStr p (pyLower t)) then none
      else some t

/-- Embeds `validate_meeting_datetime` — `validators.py:27-50`. `utcnowWall` is the
instant the default `datetime.now(timezone.utc)` would observe when `now`
is not supplied. The result is `Except`-valued because the Python
comparisons raise `TypeError` when one operand is naive. -/
def validate_meeting_datetime (meeting_datetime : Option PyDateTime)
    (now? : Option PyDateTime) (utcnowWall : Int) :
    Except Unit (Option PyDateTime) :=
  match meeting_datetime with
  | none => .ok none
  | some d0 =>
    let now : PyDateTime := match now? with
      | some n => n
      | none => ⟨utcnowWall, some 0⟩
    let d := match d0.tz with
      | none => pyDtStampUtc d0
      | some _ => d0
    match pyDtLe d now with
    | .error e => .error e
    | .ok le =>
      if le then .ok none
      else
        match pyDtGt d (pyDtAddDays now 365) with
        | .error e => .error e
        | .ok gt => if gt then .ok none else .ok (some d)

/-! ## JSON values and `json.loads` — used by `app/nlu/extractor.py`

`json.loads` is modelled by a strict recursive-descent parser over the JSON
grammar, with two documented restrictions: numbers are modelled as integers
(float and exponent syntax is rejected rather than parsed) and `\u` escapes
map through `Char.ofNat`. Objects keep their members in source order; a
repeated key is resolved to its last occurrence on lookup, as a Python
`dict` built by `json.loads` would. -/

inductive Json where
  | null
  | bool (b : Bool)
  | num (n : Int)
  | str (s : String)
  | arr (elems : List Json)
  | obj (members : List (String × Json))
deriving Repr, Inhabited

/-- The character `\x7b` (left curly brace). -/
def lbraceC : Char := Char.ofNat 123

/-- The character `\x7d` (right curly brace). -/
def rbraceC : Char := Char.ofNat 125

/-- JSON inter-token whitespace: exactly space, tab, newline, return. -/
def jsonWsChar (c : Char) : Bool :=
  c = ' ' || c = '\t' || c = '\n' || c = '\r'

/-- Drop leading JSON whitespace. -/
def dropJWs : List Char → List Char
  | [] => []
  | c :: cs => if jsonWsChar c then dropJWs cs else c :: cs

/-- Value of one hex digit. -/
def hexVal (c : Char) : Option Nat :=
  if '0' ≤ c && c ≤ '9' then some (c.toNat - 48)
  else if 'a' ≤ c && c ≤ 'f' then some (c.toNat - 87)
  else if 'A' ≤ c && c ≤ 'F' then some (c.toNat - 70)
  else none

/-- Parse the body of a JSON string (opening quote already consumed),
returning the decoded string and the remaining input. Strict mode: raw
control characters are rejected, as `json.loads` rejects them. -/
def parseJStr : Nat → List Char → List Char → Option (String × List Char)
  | 0, _, _ => none
  | fuel + 1, acc, cs =>
    match cs with
    | [] => none
    | c :: rest =>
      if c = '"' then some (String.mk acc.reverse, rest)
      else if c = '\\' then
        match rest with
        | [] => none
        | e :: rest2 =>
          if e = '"' then parseJStr fuel ('"' :: acc) rest2
          else if e = '\\' then parseJStr fuel ('\\' :: acc) rest2
          else if e = '/' then parseJStr fuel ('/' :: acc) rest2
          else if e = 'b' then parseJStr fuel ('\x08' :: acc) rest2
          else if e = 'f' then parseJStr fuel ('\x0c' :: acc) rest2
          else if e = 'n' then parseJStr fuel ('\n' :: acc) rest2
          else if e = 'r' then parseJStr fuel ('\r' :: acc) rest2
          else if e = 't' then parseJStr fuel ('\t' :: acc) rest2
          else if e = 'u' then
            match rest2 with
            | h1 :: h2 :: h3 :: h4 :: rest3 =>
              match hexVal h1, hexVal h2, hexVal h3, hexVal h4 with
              | some a, some b, some c2, some d =>
                parseJStr fuel (Char.ofNat (((a * 16 + b) * 16 + c2) * 16 + d) :: acc)
                  rest3
              | _, _, _, _ => none
            | _ => none
          else none
      else if c.toNat < 32 then none
      else parseJStr fuel (c :: acc) rest

/-- Split a char list into its leading run of decimal digits and the rest. -/
def spanDigits : List Char → List Char × List Char
  | [] => ([], [])
  | c :: cs =>
    if c.isDigit then
      let (d, r) := spanDigits cs
      (c :: d, r)
    else ([], c :: cs)

/-- Decimal digits to a natural number. -/
def digitsToNat (ds : List Char) : Nat :=
  ds.foldl (fun n c => n * 10 + (c.toNat - 48)) 0

/-- Parse a JSON number. Integers only; a leading zero followed by more
digits is rejected (as in strict JSON), and float/exponent syntax makes the
parse fail (model restriction). -/
def parseJNum (cs : List Char) : Option (Int × List Char) :=
  let p : Bool × List Char :=
    match cs with
    | c :: rest => if c = '-' then (true, rest) else (false, cs)
    | [] => (false, [])
  match spanDigits p.2 with
  | ([], _) => none
  | (ds, rest) =>
    if ds.length > 1 && ds.headD '0' = '0' then none
    else
      let ok : Bool :=
        match rest with
        | c :: _ => !(c = '.' || c = 'e' || c = 'E')
        | [] => true
      if ok then
        some (if p.1 then -(digitsToNat ds : Int) else (digitsToNat ds : Int), rest)
      else none

mutual

/-- Parse one JSON value (leading whitespace allowed). -/
def parseJVal : Nat → List Char → Option (Json × List Char)
  | 0, _ => none
  | fuel + 1, cs =>
    match dropJWs cs with
    | [] => none
    | c :: rest =>
      if c = lbraceC then
        match dropJWs rest with
        | [] => none
        | c2 :: rest2 =>
          if c2 = rbraceC then some (.obj [], rest2)
          else parseJMembers fuel (c2 :: rest2) []
      else if c = '[' then
        match dropJWs rest with
        | [] => none
        | c2 :: rest2 =>
          if c2 = ']' then some (.arr [], rest2)
          else parseJItems fuel (c2 :: rest2) []
      else if c = '"' then
        match parseJStr (rest.length + 1) [] rest with
        | some (s, r) => some (.str s, r)
        | none => none
      else if c = 't' then
        if leadsWith ['r', 'u', 'e'] rest then some (.bool true, rest.drop 3)
        else none
      else if c = 'f' then
        if leadsWith ['a', 'l', 's', 'e'] rest then some (.bool false, rest.drop 4)
        else none
      else if c = 'n' then
        if leadsWith ['u', 'l', 'l'] rest then some (.null, rest.drop 3)
        else none
      else
        match parseJNum (c :: rest) with
        | some (n, r) => some (.num n, r)
        | none => none

/-- Parse the members of a JSON object, positioned at a key (whitespace
already skipped, opening brace consumed). -/
def parseJMembers : Nat → List Char → List (String × Json) →
    Option (Json × List Char)
  | 0, _, _ => none
  | fuel + 1, cs, acc =>
    match cs with
    | [] => none
    | c :: rest =>
      if c = '"' then
        match parseJStr (rest.length + 1) [] rest with
        | none => none
        | some (key, r1) =>
          match dropJWs r1 with
          | [] => none
          | c2 :: r2 =>
            if c2 = ':' then
              match parseJVal fuel r2 with
              | none => none
              | some (v, r3) =>
                match dropJWs r3 with
                | [] => none
                | c3 :: r4 =>
                  if c3 = ',' then
                    match dropJWs r4 with
                    | [] => none
                    | c5 :: r5 => parseJMembers fuel (c5 :: r5) ((key, v) :: acc)
                  else if c3 = rbraceC then
                    some (.obj ((key, v) :: acc).reverse, r4)
                  else none
            else none
      else none

/-- Parse the items of a JSON array (opening bracket consumed, at least one
item expected). -/
def parseJItems : Nat → List Char → List Json → Option (Json × List Char)
  | 0, _, _ => none
  | fuel + 1, cs, acc =>
    match parseJVal fuel cs with
    | none => none
    | some (v, r1) =>
      match dropJWs r1 with
      | [] => none
      | c2 :: r2 =>
        if c2 = ',' then parseJItems fuel r2 (v :: acc)
        else if c2 = ']' then some (.arr (v :: acc).reverse, r2)
        else none

end

/-- Embeds `json.loads`: parse a complete JSON document (trailing whitespace
allowed, anything else after the value is an error). -/
def jsonLoads (t : String) : Option Json :=
  match parseJVal (4 * t.length + 8) t.toList with
  | some (v, rest) => if dropJWs rest = [] then some v else none
  | none => none

/-- Python truthiness of a `json.loads` result (`if not raw_output`). -/
def jsonTruthy : Json → Bool
  | .null => false
  | .bool b => b
  | .num n => n ≠ 0
  | .str s => s ≠ ""
  | .arr xs => !xs.isEmpty
  | .obj kvs => !kvs.isEmpty

/-- Embeds `_safe_json_parse` — `extractor.py:44-69`: direct parse first, then the
substring from the first `\x7b` to the last `\x7d`, else an empty record. -/
def safe_json_parse (text : String) : Json :=
  if text = "" then .obj []
  else
    match jsonLoads text with
    | some v => v
    | none =>
      let s := pyFind text lbraceC
      let e := pyRfind text rbraceC
      if s ≠ -1 && e ≠ -1 && s < e then
        match jsonLoads (pySlice text s (e + 1)) with
        | some v => v
        | none => .obj []
      else .obj []

/-- Suffix of a char list starting at its first `\x7b`, if any. -/
def suffixFromBrace : List Char → Option (List Char)
  | [] => none
  | c :: cs => if c = lbraceC then some (c :: cs) else suffixFromBrace cs

/-- Scan a brace-balanced run: accumulate characters, tracking brace depth,
until depth returns to zero. -/
def balancedScan : Nat → Int → List Char → List Char → Option String
  | 0, _, _, _ => none
  | fuel + 1, depth, acc, cs =>
    match cs with
    | [] => none
    | c :: rest =>
      let acc2 := c :: acc
      let depth2 : Int :=
        if c = lbraceC then depth + 1
        else if c = rbraceC then depth - 1
        else depth
      if depth2 = 0 then some (String.mk acc2.reverse)
      else balancedScan fuel depth2 acc2 rest

/-- The claim-side notion for C7, following the spec words "locate ... the
first balanced top-level object substring of the text": the substring that
starts at the first left brace and ends where brace nesting first returns
to zero. Defined only to be compared against `safe_json_parse`. -/
def firstBalancedObjSub (t : String) : Option String :=
  match suffixFromBrace t.toList with
  | none => none
  | some suf => balancedScan (suf.length + 1) 0 [] suf

/-! ## Conversation state — `app/state.py`

`google_access_token` is not declared in `state.py:18-43` but is assigned on
the state in `websocket.py` (auth handling) and read in `graph.py`
(`await_confirmation_node`); it is carried here as an optional field so that
the code that uses it can be embedded. -/

structure ConversationState where
  step : String := "START"
  timezone : Option String := some "Asia/Kolkata"
  name : Option String := none
  meeting_datetime : Option PyDateTime := none
  meeting_title : Option String := none
  last_user_message : Option String := none
  system_message : Option String := none
  is_confirmed : Option Bool := some false
  confirmation_status : Option String := none
  google_access_token : Option String := none
deriving DecidableEq, Repr

/-- The freshly constructed `ConversationState()` of `websocket.py:72`. -/
def initialState : ConversationState := {}

/-! ## External collaborators

Everything the pipeline calls out to, bundled as one record of oracles. -/

/-- Python exceptions that the embedded code can raise. -/
inductive PyErr where
  | typeError
  | zoneError
  | graphError
deriving DecidableEq, Repr

structure Oracle where
  /-- Provider behaviour for a given user message on attempt `i` (1-based)
  of `_run_with_retries`: `none` models a timeout or provider exception on
  that attempt, `some c` the textual completion content returned by
  `_call_groq`. -/
  attempts : Option String → Nat → Option String
  /-- Models `settings.LLM_MAX_RETRIES`. -/
  maxRetries : Nat
  /-- Models `dateparser.parse` under the settings of `parse_datetime`: the raw
  result before `parse_datetime` stamps a naive value. -/
  dateparse : String → Option PyDateTime
  /-- The zoneinfo database: UTC offset in seconds of an IANA name, `none`
  when `ZoneInfo(name)` would raise. -/
  zone : String → Option Int
  /-- Wall-clock seconds (UTC) observed by `datetime.now`. -/
  clock : Int
  /-- Models `generate_response(state, goal, context_note)`: it catches all its own
  exceptions and always returns text, so it is a total function of the
  goal and context note. -/
  gen : String → Option String → String
  /-- Models `meeting_datetime.strftime("%A, %d %B at %I:%M %p")`. -/
  fmtDate : PyDateTime → String
  /-- Whether `calendar_service.create_event` succeeds; `false` models the
  `GoogleCalendarError` it raises on any failure. -/
  calendarOk : Bool

/-! ## Extraction pipeline — `app/nlu/extractor.py` -/

/-- The `ExtractionFields` pydantic schema — `app/nlu/schemas.py`. -/
structure ExtractionFields where
  name : Option String
  meeting_datetime_text : Option String
  meeting_title : Option String
  confirmation_status : Option String
deriving DecidableEq, Repr

/-- Lookup in a parsed JSON object, resolving a repeated key the way the
Python `dict` would: the last occurrence wins. -/
def jsonGet (kvs : List (String × Json)) (k : String) : Option Json :=
  ((kvs.filter (fun p => p.1 = k)).map Prod.snd).getLast?

/-- Pydantic validation of one `Optional[str]` field: absent or `null`
defaults to `None`, a string is taken as is, any other JSON value is a
`ValidationError` (pydantic v2 does not coerce). -/
def fieldAsOptStr (kvs : List (String × Json)) (k : String) :
    Option (Option String) :=
  match jsonGet kvs k with
  | none => some none
  | some .null => some none
  | some (.str s) => some (some s)
  | some _ => none

/-- Embeds `ExtractionFields(**raw_output)` on a dict: `none` models the
`ValidationError` that `extract_fields` catches. Extra keys are ignored
(pydantic default). -/
def mkExtractionFields (kvs : List (String × Json)) : Option ExtractionFields :=
  match fieldAsOptStr kvs "name", fieldAsOptStr kvs "meeting_datetime_text",
      fieldAsOptStr kvs "meeting_title", fieldAsOptStr kvs "confirmation_status" with
  | some n, some dt, some t, some c =>
    some { name := n, meeting_datetime_text := dt, meeting_title := t,
           confirmation_status := c }
  | _, _, _, _ => none

/-- Embeds `_run_with_retries` — `extractor.py:91-106`: try attempts `1..maxRetries`
in order; a timeout or provider error moves to the next attempt; the first
attempt that completes returns `_safe_json_parse` of its content; exhaustion
returns the empty dict. -/
def runWithRetriesAux (attempts : Nat → Option String) : Nat → Nat → Json
  | _, 0 => .obj []
  | i, remaining + 1 =>
    match attempts i with
    | some content => safe_json_parse content
    | none => runWithRetriesAux attempts (i + 1) remaining

def runWithRetries (attempts : Nat → Option String) (maxRetries : Nat) : Json :=
  runWithRetriesAux attempts 1 maxRetries

/-- Embeds `parse_datetime` — `app/utils/datetime_parser.py:18-91`: empty or
whitespace-only text is no match; otherwise the `dateparser` result, with a
naive result stamped with the stated timezone; `dateparser` exceptions are
converted to no match inside `parse_datetime` (hence an `Option`, not an
`Except`). -/
def parse_datetime (dp : String → Option PyDateTime) (text : String)
    (tzOff : Int) : Option PyDateTime :=
  if pyStrip text = "" then none
  else
    match dp text with
    | none => none
    | some dt => some (if dt.tz.isSome then dt else { dt with tz := some tzOff })

/-- The confirmation-token normalisation of `extractor.py:148-153`: lower,
strip, and store only a recognised token. -/
def applyConfirmation (s : ConversationState) (c? : Option String) :
    ConversationState :=
  match c? with
  | none => s
  | some c =>
    if c ≠ "" then
      let v := pyStrip (pyLower c)
      if v = "yes" ∨ v = "no" ∨ v = "uncertain" then
        { s with confirmation_status := some v }
      else s
    else s

/-- The datetime resolution of `extractor.py:155-181`: build the session
timezone (raising if `ZoneInfo` does), take `now` in it, run
`parse_datetime`, then `validate_meeting_datetime`. -/
def resolveDatetime (o : Oracle) (s : ConversationState)
    (txt? : Option String) : Except PyErr (Option PyDateTime) :=
  match txt? with
  | none => .ok none
  | some txt =>
    if txt ≠ "" then
      match o.zone (pyOrStr s.timezone "UTC") with
      | none => .error .zoneError
      | some off =>
        let now : PyDateTime := ⟨o.clock + off, some off⟩
        match parse_datetime o.dateparse txt off with
        | none => .ok none
        | some pdt =>
          match validate_meeting_datetime (some pdt) (some now) o.clock with
          | .ok v => .ok v
          | .error _ => .error .typeError
    else .ok none

/-- The defensive state updates of `extractor.py:183-194`, in source order:
name, datetime, title; each field is written only when the extracted value
is truthy and the stored one is falsy. -/
def mergeSlots (s : ConversationState) (name title : Option String)
    (mdt : Option PyDateTime) : ConversationState :=
  let s1 := if optStrTruthy name && !optStrTruthy s.name then
    { s with name := name } else s
  let s2 := if mdt.isSome && s1.meeting_datetime.isNone then
    { s1 with meeting_datetime := mdt } else s1
  if optStrTruthy title && !optStrTruthy s2.meeting_title then
    { s2 with meeting_title := title } else s2

/-- Embeds `extract_fields` — `extractor.py:112-196`. The `Except.error` cases are
the exceptions the function lets escape: a `TypeError` from
`ExtractionFields(**raw_output)` when the parsed provider output is a truthy
non-object, and a zoneinfo failure for an invalid session timezone. -/
def extract_fields (o : Oracle) (s : ConversationState)
    (userMessage : Option String) : Except PyErr ConversationState :=
  if !jsonTruthy (runWithRetries (o.attempts userMessage) o.maxRetries) then .ok s
  else
    match runWithRetries (o.attempts userMessage) o.maxRetries with
    | .obj kvs =>
      match mkExtractionFields kvs with
      | none => .ok s
      | some fields =>
        match resolveDatetime o (applyConfirmation s fields.confirmation_status)
            fields.meeting_datetime_text with
        | .error e => .error e
        | .ok mdt =>
          .ok (mergeSlots (applyConfirmation s fields.confirmation_status)
            (validate_name fields.name)
            (validate_meeting_title fields.meeting_title) mdt)
    | _ => .error .typeError

/-! ## Step handlers — `app/graph.py` -/

/-- Python f-string rendering of an `Optional[str]`: `None` prints as the
text None. -/
def pyStrOfOpt : Option String → String
  | none => "None"
  | some s => s

/-- Embeds `start_node` — `graph.py:15-39`. -/
def start_node (o : Oracle) (s : ConversationState) :
    Except PyErr ConversationState :=
  if optStrTruthy s.name then
    let goal := "Greet " ++ s.name.getD "" ++
      " warmly back. Mention you are ready to schedule on their calendar. Ask for the date and time."
    .ok { s with system_message := some (o.gen goal none), step := "ASK_DATETIME" }
  else
    .ok { s with
      system_message :=
        some (o.gen "Greet the user warmly and ask for their name to start scheduling." none),
      step := "ASK_NAME" }

/-- Embeds `ask_name_node` — `graph.py:42-66`. -/
def ask_name_node (o : Oracle) (s : ConversationState) :
    Except PyErr ConversationState :=
  match extract_fields o s s.last_user_message with
  | .error e => .error e
  | .ok s1 =>
    if optStrTruthy s1.name then
      .ok { s1 with
        system_message :=
          some (o.gen "Acknowledge the user\u0027s name warmly and ask for the meeting date and time." none),
        step := "ASK_DATETIME" }
    else
      .ok { s1 with
        system_message :=
          some (o.gen "Politely explain you didn\u0027t catch the name and ask for it again."
            (some "User input was unclear or didn\u0027t contain a name.")),
        step := "ASK_NAME" }

/-- Embeds `ask_datetime_node` — `graph.py:69-99`. -/
def ask_datetime_node (o : Oracle) (s : ConversationState) :
    Except PyErr ConversationState :=
  match extract_fields o s s.last_user_message with
  | .error e => .error e
  | .ok s1 =>
    if s1.meeting_datetime.isSome then
      .ok { s1 with
        system_message :=
          some (o.gen "Acknowledge the date/time and ask if they want to add a meeting title (or say no to skip)." none),
        step := "ASK_TITLE" }
    else
      .ok { s1 with
        system_message :=
          some (o.gen "Politely explain the date was invalid or missing, and ask for the date and time again (e.g. tomorrow at 3pm)."
            (some "Date parsing failed.")),
        step := "ASK_DATETIME" }

/-- The skip vocabulary of `graph.py:109`. -/
def skipWords : List String := ["no", "nope", "skip", "none", "not needed"]

/-- Embeds `ask_title_node` — `graph.py:102-123`. On success it only moves the step
to `CONFIRM_DETAILS`, composing no message of its own. -/
def ask_title_node (o : Oracle) (s : ConversationState) :
    Except PyErr ConversationState :=
  match extract_fields o s s.last_user_message with
  | .error e => .error e
  | .ok s1 =>
    let msg := pyStrip (pyLower (pyOrStr s1.last_user_message ""))
    if optStrTruthy s1.meeting_title || msg ∈ skipWords then
      .ok { s1 with step := "CONFIRM_DETAILS" }
    else
      .ok { s1 with
        system_message :=
          some (o.gen "Politely ask for the title again, or remind them they can say \u0027no\u0027 to skip."
            (some "Input was not a title or \u0027no\u0027.")),
        step := "ASK_TITLE" }

/-- Embeds `confirm_details_node` — `graph.py:126-149`. -/
def confirm_details_node (o : Oracle) (s : ConversationState) :
    Except PyErr ConversationState :=
  let date_str := match s.meeting_datetime with
    | some d => o.fmtDate d
    | none => "an unspecified time"
  let title_str := pyOrStr s.meeting_title "Meeting"
  let context_note := "CONFIRMATION DETAILS: Title=\u0027" ++ title_str ++
    "\u0027, Date=\u0027" ++ date_str ++ "\u0027. Name=\u0027" ++
    pyStrOfOpt s.name ++ "\u0027"
  let goal := "Ask user to confirm these EXACT details: " ++ title_str ++
    " on " ++ date_str ++ ". Ask \u0027Should I create it?\u0027. Be precise."
  .ok { s with
    system_message := some (o.gen goal (some context_note)),
    step := "AWAIT_CONFIRMATION" }

/-- Embeds `await_confirmation_node` — `graph.py:152-200`: clear the confirmation
slot, re-extract, then branch on the classified intent; a calendar failure
is the `GoogleCalendarError` branch. -/
def await_confirmation_node (o : Oracle) (s : ConversationState) :
    Except PyErr ConversationState :=
  match extract_fields o { s with confirmation_status := none }
      s.last_user_message with
  | .error e => .error e
  | .ok s1 =>
    if s1.confirmation_status = some "yes" then
      if o.calendarOk then
        .ok { s1 with
          system_message :=
            some (o.gen "Confirm the meeting was successfully created. Then ask if they would like to schedule ANOTHER event." none),
          is_confirmed := some true,
          step := "HANDLE_NEW_LOOP" }
      else
        .ok { s1 with
          system_message :=
            some "I encountered an issue connecting to the calendar. Please try again later.",
          is_confirmed := some false,
          step := "END" }
    else if s1.confirmation_status = some "no" then
      .ok { s1 with
        system_message :=
          some "Okay, I\u0027ve cancelled the request. Let me know if you need anything else.",
        is_confirmed := some false,
        step := "END" }
    else
      .ok { s1 with
        system_message :=
          some "I\u0027m not sure if you want to confirm. Please say yes to confirm or no to cancel.",
        step := "AWAIT_CONFIRMATION" }

/-- Embeds `handle_new_loop_node` — `graph.py:203-241`: on a `yes` intent, reset
the three slots, the confirmation slot and `is_confirmed`, and restart at
`ASK_NAME`. -/
def handle_new_loop_node (o : Oracle) (s : ConversationState) :
    Except PyErr ConversationState :=
  match extract_fields o { s with confirmation_status := none }
      s.last_user_message with
  | .error e => .error e
  | .ok s1 =>
    if s1.confirmation_status = some "yes" then
      .ok { s1 with
        name := none,
        meeting_datetime := none,
        meeting_title := none,
        is_confirmed := some false,
        confirmation_status := none,
        system_message :=
          some (o.gen "Enthusiastically accept. Ask who the new meeting is with." none),
        step := "ASK_NAME" }
    else if s1.confirmation_status = some "no" then
      .ok { s1 with
        system_message := some (o.gen "Politely say goodbye and end the session." none),
        step := "END" }
    else
      .ok { s1 with
        system_message :=
          some "I didn\u0027t catch that. Do you want to schedule another event? Yes or No?",
        step := "HANDLE_NEW_LOOP" }

/-! ## Router and runner — `app/workflow.py` -/

/-- Embeds `next_step_router` — `workflow.py:23-29`: run after a node, it returns
the step the node stored. -/
def next_step_router (s : ConversationState) : String :=
  s.step

/-- The recognised in-flight step set of `workflow.py:38-45`. -/
def inflightSteps : List String :=
  ["ASK_NAME", "ASK_DATETIME", "ASK_TITLE", "CONFIRM_DETAILS",
   "AWAIT_CONFIRMATION", "HANDLE_NEW_LOOP"]

/-- Embeds `route_start` — `workflow.py:32-49`: a truthy recognised step resumes
there, everything else enters at `START`. -/
def route_start (s : ConversationState) : String :=
  if s.step ≠ "" ∧ s.step ∈ inflightSteps then s.step else "START"

/-- Dispatch one graph node by name (`build_graph`, `workflow.py:55-98`);
`graphError` models the fault LangGraph raises for an unknown node. -/
def runNode (o : Oracle) (node : String) (s : ConversationState) :
    Except PyErr ConversationState :=
  if node = "START" then start_node o s
  else if node = "ASK_NAME" then ask_name_node o s
  else if node = "ASK_DATETIME" then ask_datetime_node o s
  else if node = "ASK_TITLE" then ask_title_node o s
  else if node = "CONFIRM_DETAILS" then confirm_details_node o s
  else if node = "AWAIT_CONFIRMATION" then await_confirmation_node o s
  else if node = "HANDLE_NEW_LOOP" then handle_new_loop_node o s
  else .error .graphError

/-- One `conversation_graph.ainvoke`: the conditional entry point picks one
node via `route_start`; every node has a plain edge to `END` except
`ASK_TITLE`, whose conditional edge (`workflow.py:85-92`) routes a stored
`CONFIRM_DETAILS` step into the `CONFIRM_DETAILS` node within the same
invocation. The returned list records the nodes executed, in order. -/
def conversationGraphRun (o : Oracle) (s : ConversationState) :
    Except PyErr (ConversationState × List String) :=
  match runNode o (route_start s) s with
  | .error e => .error e
  | .ok s1 =>
    if route_start s = "ASK_TITLE" then
      if next_step_router s1 = "CONFIRM_DETAILS" then
        match confirm_details_node o s1 with
        | .error e => .error e
        | .ok s2 => .ok (s2, [route_start s, "CONFIRM_DETAILS"])
      else if next_step_router s1 = "ASK_TITLE" then .ok (s1, [route_start s])
      else .error .graphError
    else .ok (s1, [route_start s])

/-- Embeds `run_step` — `workflow.py:108-126`: one graph invocation per websocket
turn; any exception is swallowed and the input state returned as it was. -/
def run_step (o : Oracle) (s : ConversationState) : ConversationState :=
  match conversationGraphRun o s with
  | .ok (s1, _) => s1
  | .error _ => s

/-! ## Concrete instances used in witnesses and counterexamples -/

/-- A benign oracle: the provider times out on every attempt, the generator
echoes its goal, the calendar succeeds. -/
def baseO : Oracle where
  attempts := fun _ _ => none
  maxRetries := 2
  dateparse := fun _ => none
  zone := fun z =>
    if z = "UTC" then some 0
    else if z = "Asia/Kolkata" then some 19800
    else none
  clock := 0
  gen := fun g _ => g
  fmtDate := fun _ => "Monday, 01 January at 01:00 AM"
  calendarOk := true

/-- Provider whose first attempt returns the JSON document `[1]`: parseable,
truthy, but not an object. -/
def badJsonO : Oracle :=
  { baseO with attempts := fun _ i => if i = 1 then some "[1]" else none }

/-- Provider whose first attempt returns an object whose `name` member is a
number, so `ExtractionFields` validation fails. -/
def badSchemaO : Oracle :=
  { baseO with
    attempts := fun _ i => if i = 1 then some "\x7b\"name\": 5\x7d" else none }

/-- Provider whose first attempt extracts the meeting title "Project Sync". -/
def titleO : Oracle :=
  { baseO with
    attempts := fun _ i =>
      if i = 1 then some "\x7b\"meeting_title\": \"Project Sync\"\x7d" else none }

/-- Provider whose first attempt classifies the utterance as a yes. -/
def yesO : Oracle :=
  { baseO with
    attempts := fun _ i =>
      if i = 1 then some "\x7b\"confirmation_status\": \"yes\"\x7d" else none }

/-- A session waiting in `ASK_TITLE`. -/
def titleS : ConversationState :=
  { step := "ASK_TITLE", last_user_message := some "team sync",
    name := some "Ada", meeting_datetime := some ⟨3600, some 19800⟩ }

/-- A session waiting in `ASK_NAME`. -/
def askNameS : ConversationState :=
  { step := "ASK_NAME", last_user_message := some "Ada here" }

/-- A session in `ASK_NAME` whose name slot is already filled. -/
def namedS : ConversationState :=
  { step := "ASK_NAME", name := some "Bob", last_user_message := some "hello" }

/-- A session waiting in `HANDLE_NEW_LOOP` with all slots filled. -/
def loopS : ConversationState :=
  { step := "HANDLE_NEW_LOOP", name := some "Ada",
    meeting_datetime := some ⟨3600, some 19800⟩, meeting_title := some "Sync",
    last_user_message := some "yes please", is_confirmed := some true,
    google_access_token := some "tok" }

/-- The state `handle_new_loop_node yesO loopS` produces. -/
def loopResetS : ConversationState :=
  { step := "ASK_NAME", timezone := some "Asia/Kolkata", name := none,
    meeting_datetime := none, meeting_title := none,
    last_user_message := some "yes please",
    system_message := some "Enthusiastically accept. Ask who the new meeting is with.",
    is_confirmed := some false, confirmation_status := none,
    google_access_token := some "tok" }

/-- The state one turn from `initialState` under `baseO` produces. -/
def greetedS : ConversationState :=
  { step := "ASK_NAME", timezone := some "Asia/Kolkata",
    system_message :=
      some "Greet the user warmly and ask for their name to start scheduling.",
    is_confirmed := some false }

/-- Provider whose first attempt extracts the (two-character, hence
accepted) name "Jo". -/
def nameO : Oracle :=
  { baseO with
    attempts := fun _ i => if i = 1 then some "\x7b\"name\": \"Jo\"\x7d" else none }

/-- Slot fields never hold the empty string. Slots are only ever written
from validator outputs guarded by Python truthiness, so this holds at the
initial state and is preserved by every operation; it is the reachable-state
side condition under which "non-null" and "truthy" coincide. -/
def SlotInv (s : ConversationState) : Prop :=
  s.name ≠ some "" ∧ s.meeting_title ≠ some ""

/-! ## Shared helper lemmas -/

/-- Embeds `applyConfirmation` touches only `confirmation_status`. -/
theorem applyConfirmation_frame (s : ConversationState) (c : Option String) :
    (applyConfirmation s c).step = s.step ∧
    (applyConfirmation s c).timezone = s.timezone ∧
    (applyConfirmation s c).last_user_message = s.last_user_message ∧
    (applyConfirmation s c).system_message = s.system_message ∧
    (applyConfirmation s c).google_access_token = s.google_access_token ∧
    (applyConfirmation s c).is_confirmed = s.is_confirmed ∧
    (applyConfirmation s c).name = s.name ∧
    (applyConfirmation s c).meeting_datetime = s.meeting_datetime ∧
    (applyConfirmation s c).meeting_title = s.meeting_title := by
  cases c with
  | none => exact ⟨rfl, rfl, rfl, rfl, rfl, rfl, rfl, rfl, rfl⟩
  | some c =>
    simp only [applyConfirmation]
    split_ifs <;> exact ⟨rfl, rfl, rfl, rfl, rfl, rfl, rfl, rfl, rfl⟩

/-- Embeds `mergeSlots` touches only the three slot fields. -/
theorem mergeSlots_frame (s : ConversationState) (n t : Option String)
    (d : Option PyDateTime) :
    (mergeSlots s n t d).step = s.step ∧
    (mergeSlots s n t d).timezone = s.timezone ∧
    (mergeSlots s n t d).last_user_message = s.last_user_message ∧
    (mergeSlots s n t d).system_message = s.system_message ∧
    (mergeSlots s n t d).google_access_token = s.google_access_token ∧
    (mergeSlots s n t d).is_confirmed = s.is_confirmed ∧
    (mergeSlots s n t d).confirmation_status = s.confirmation_status := by
  simp only [mergeSlots]
  split <;> split <;> split <;> exact ⟨rfl, rfl, rfl, rfl, rfl, rfl, rfl⟩

/-- Embeds `extract_fields` only writes the three slot fields and the confirmation
slot: every other state field comes through unchanged. -/
theorem extract_fields_frame (o : Oracle) (s : ConversationState)
    (m : Option String) (s' : ConversationState)
    (h : extract_fields o s m = .ok s') :
    s'.step = s.step ∧ s'.timezone = s.timezone ∧
    s'.last_user_message = s.last_user_message ∧
    s'.system_message = s.system_message ∧
    s'.google_access_token = s.google_access_token ∧
    s'.is_confirmed = s.is_confirmed := by
  unfold extract_fields at h
  split at h
  · cases h; exact ⟨rfl, rfl, rfl, rfl, rfl, rfl⟩
  · split at h
    · next kvs =>
      split at h
      · cases h; exact ⟨rfl, rfl, rfl, rfl, rfl, rfl⟩
      · next fields _ =>
        split at h
        · exact Except.noConfusion h
        · next mdt heq =>
          cases h
          have hm := mergeSlots_frame (applyConfirmation s fields.confirmation_status)
            (validate_name fields.name) (validate_meeting_title fields.meeting_title) mdt
          have ha := applyConfirmation_frame s fields.confirmation_status
          exact ⟨hm.1.trans ha.1, hm.2.1.trans ha.2.1, hm.2.2.1.trans ha.2.2.1,
            hm.2.2.2.1.trans ha.2.2.2.1, hm.2.2.2.2.1.trans ha.2.2.2.2.1,
            hm.2.2.2.2.2.1.trans ha.2.2.2.2.2.1⟩
    · exact Except.noConfusion h

/-! ## The claims -/

/-- C1: the spec claims every string of letters, spaces, hyphens and
apostrophes with length in [2,50] outside the denylist is returned
unchanged. The source comment "Reject too short or too long"
(`validators.py:10`) and the spec both intend bounds [2,50], but the code
compares the lower bound with `>` instead of `<` (`len(name)>2`), so every
name longer than two characters is rejected: "Ada" maps to `none`, while the
two-character "Jo" is still returned unchanged. -/
theorem c1_validate_name_rejects_valid_name :
    validate_name (some "Ada") = none ∧ validate_name (some "Jo") = some "Jo" :=
  ⟨by decide, by decide⟩

/-- C9: `route_start` maps each recognised in-flight step to itself and
every other stored value — terminal, unrecognised or empty — to "START". -/
theorem c9_entry_resolution (s : ConversationState) :
    (s.step ∈ inflightSteps → route_start s = s.step) ∧
    (s.step ∉ inflightSteps → route_start s = "START") := by
  constructor
  · intro h
    have hne : s.step ≠ "" := by
      simp only [inflightSteps, List.mem_cons, List.not_mem_nil, or_false] at h
      rcases h with h | h | h | h | h | h <;> simp [h]
    unfold route_start
    exact if_pos ⟨hne, h⟩
  · intro h
    unfold route_start
    exact if_neg (fun hc => h hc.2)

/-- Witness for C9 at the in-flight step "ASK_TITLE" and the terminal step
"END". -/
theorem c9_entry_resolution_witness :
    route_start titleS = "ASK_TITLE" ∧
    route_start { initialState with step := "END" } = "START" :=
  ⟨(c9_entry_resolution titleS).1 (by decide),
   (c9_entry_resolution { initialState with step := "END" }).2 (by decide)⟩

/-- With an aware explicit `now`, the datetime validator always returns
(no exception escapes). -/
theorem validate_mdt_ok_aware_now (dw : Int) (dtz : Option Int)
    (nw y u : Int) :
    ∃ r, validate_meeting_datetime (some ⟨dw, dtz⟩) (some ⟨nw, some y⟩) u =
      .ok r := by
  cases dtz <;>
    · unfold validate_meeting_datetime pyDtLe pyDtGt pyDtAddDays pyDtStampUtc
      dsimp only
      split_ifs <;> exact ⟨_, rfl⟩

/-- With the default (aware) `now`, the datetime validator always returns. -/
theorem validate_mdt_ok_default_now (dw : Int) (dtz : Option Int) (u : Int) :
    ∃ r, validate_meeting_datetime (some ⟨dw, dtz⟩) none u = .ok r := by
  cases dtz <;>
    · unfold validate_meeting_datetime pyDtLe pyDtGt pyDtAddDays pyDtStampUtc
      dsimp only
      split_ifs <;> exact ⟨_, rfl⟩

/-- C5 counterexample: the claim requires "in every other case (… or a naive
operand) it returns no value", but for a naive candidate one hour after an
aware `now` the validator stamps the candidate with UTC and accepts it —
returning the stamped value, not nothing. -/
theorem c5_naive_candidate_accepted_cex :
    validate_meeting_datetime (some ⟨3600, none⟩) (some ⟨0, some 0⟩) 0 =
      .ok (some ⟨3600, some 0⟩) := by decide

/-- C5 as amended: with both operands aware the validator accepts exactly on
`now < d ≤ now + 365 days` (returning `d`); a naive candidate is first
stamped with UTC and then treated as aware; a naive explicit `now` makes the
comparison raise `TypeError` instead of returning no value. -/
theorem c5_datetime_validator_amended :
    (∀ (d now : PyDateTime) (u : Int), d.tz.isSome → now.tz.isSome →
      validate_meeting_datetime (some d) (some now) u =
        .ok (if now.instant < d.instant ∧ d.instant ≤ now.instant + 365 * 86400
          then some d else none)) ∧
    (∀ (d now : PyDateTime) (u : Int), d.tz = none →
      validate_meeting_datetime (some d) (some now) u =
        validate_meeting_datetime (some (pyDtStampUtc d)) (some now) u) ∧
    (∀ (d now : PyDateTime) (u : Int), now.tz = none →
      validate_meeting_datetime (some d) (some now) u = .error ()) := by
  refine ⟨?_, ?_, ?_⟩
  · rintro ⟨dw, dtz⟩ ⟨nw, ntz⟩ u hd hn
    obtain ⟨x, rfl⟩ := Option.isSome_iff_exists.mp hd
    obtain ⟨y, rfl⟩ := Option.isSome_iff_exists.mp hn
    simp only [validate_meeting_datetime, pyDtLe, pyDtGt, pyDtAddDays,
      PyDateTime.instant, Option.getD_some, decide_eq_true_eq]
    split_ifs <;> first | rfl | (exfalso; omega)
  · rintro ⟨dw, dtz⟩ now u hd
    simp only at hd
    subst hd
    rfl
  · rintro ⟨dw, dtz⟩ ⟨nw, ntz⟩ u hn
    simp only at hn
    subst hn
    cases dtz <;> rfl

/-- Witness for C5 as amended: an aware candidate two hours ahead is
accepted; a naive candidate behaves as its UTC-stamped version; an aware
candidate against a naive `now` raises. -/
theorem c5_datetime_validator_amended_witness :
    validate_meeting_datetime (some ⟨7200, some 0⟩) (some ⟨0, some 0⟩) 0 =
      .ok (some ⟨7200, some 0⟩) ∧
    validate_meeting_datetime (some ⟨5, none⟩) (some ⟨9, some 0⟩) 0 =
      validate_meeting_datetime (some (pyDtStampUtc ⟨5, none⟩))
        (some ⟨9, some 0⟩) 0 ∧
    validate_meeting_datetime (some ⟨5, some 0⟩) (some ⟨9, none⟩) 0 =
      .error () := by
  refine ⟨?_, ?_, ?_⟩
  · rw [c5_datetime_validator_amended.1 ⟨7200, some 0⟩ ⟨0, some 0⟩ 0
      (by decide) (by decide)]
    decide
  · exact c5_datetime_validator_amended.2.1 ⟨5, none⟩ ⟨9, some 0⟩ 0 (by decide)
  · exact c5_datetime_validator_amended.2.2 ⟨5, some 0⟩ ⟨9, none⟩ 0 (by decide)

/-- C8 counterexample: the claim says every validator, on any optional
candidate paired with any optional reference instant, naive or aware,
returns a value or absence and never raises; but an aware candidate
compared against a naive explicit `now` raises `TypeError` inside
`validate_meeting_datetime`. -/
theorem c8_validator_raises_cex :
    validate_meeting_datetime (some ⟨3600, some 0⟩) (some ⟨0, none⟩) 0 =
      .error () := by decide

/-- C8 as amended: the name validator returns the input unchanged or
absence; the title validator returns the stripped title or absence; the
datetime validator returns a value or absence exactly unless a candidate is
present and the explicit reference instant is naive, in which case the
aware/naive comparison raises. -/
theorem c8_validators_amended :
    (∀ s, validate_name (some s) = none ∨ validate_name (some s) = some s) ∧
    (∀ s, validate_meeting_title (some s) = none ∨
      validate_meeting_title (some s) = some (pyStrip s)) ∧
    (∀ (md now? : Option PyDateTime) (u : Int),
      (∃ r, validate_meeting_datetime md now? u = .ok r) ↔
        (md = none ∨ ∀ n, now? = some n → n.tz ≠ none)) := by
  refine ⟨?_, ?_, ?_⟩
  · intro s
    simp only [validate_name]
    split_ifs <;> simp
  · intro s
    simp only [validate_meeting_title]
    split_ifs <;> simp
  · intro md now? u
    cases md with
    | none => simp [validate_meeting_datetime]
    | some d =>
      obtain ⟨dw, dtz⟩ := d
      cases now? with
      | none =>
        constructor
        · intro _
          right
          intro n hn
          cases hn
        · intro _
          exact validate_mdt_ok_default_now dw dtz u
      | some n =>
        obtain ⟨nw, ntz⟩ := n
        cases ntz with
        | none =>
          constructor
          · rintro ⟨r, hr⟩
            cases dtz <;> simp [validate_meeting_datetime, pyDtLe,
              pyDtStampUtc] at hr
          · rintro (h | h)
            · cases h
            · exact (h ⟨nw, none⟩ rfl rfl).elim
        | some y =>
          constructor
          · intro _
            right
            intro n hn
            cases hn
            simp
          · intro _
            exact validate_mdt_ok_aware_now dw dtz nw y u

/-- Witness for C8 as amended at concrete inputs. -/
theorem c8_validators_amended_witness :
    (validate_name (some "Jo") = none ∨ validate_name (some "Jo") = some "Jo") ∧
    (validate_meeting_title (some " Standup ") = none ∨
      validate_meeting_title (some " Standup ") = some (pyStrip " Standup ")) ∧
    (∃ r, validate_meeting_datetime (some ⟨60, some 0⟩) (some ⟨0, some 0⟩) 0 =
      .ok r) :=
  ⟨c8_validators_amended.1 "Jo", c8_validators_amended.2.1 " Standup ",
   (c8_validators_amended.2.2 (some ⟨60, some 0⟩) (some ⟨0, some 0⟩) 0).mpr
     (Or.inr (fun n hn => by cases hn; decide))⟩

/-- C7 counterexample: in the text `x \x7b"a": 1\x7d \x7d` direct parsing
fails, the first balanced top-level object substring is `\x7b"a": 1\x7d`
and parses to the record `a = 1`; the claim therefore predicts that record,
but `_safe_json_parse` takes the slice from the first left brace to the LAST
right brace, which does not parse, and yields the empty record instead. -/
theorem c7_first_balanced_not_used_cex :
    jsonLoads "x \x7b\"a\": 1\x7d \x7d" = none ∧
    firstBalancedObjSub "x \x7b\"a\": 1\x7d \x7d" = some "\x7b\"a\": 1\x7d" ∧
    jsonLoads "\x7b\"a\": 1\x7d" = some (.obj [("a", .num 1)]) ∧
    safe_json_parse "x \x7b\"a\": 1\x7d \x7d" = .obj [] :=
  ⟨rfl, rfl, rfl, rfl⟩

/-- C7 as amended: direct parsing wins when it succeeds; on failure the
parser does not seek the first balanced object but slices from the first
left brace to the last right brace, takes that slice's parse when it
succeeds, and otherwise reports the empty record. -/
theorem c7_safe_json_parse_amended :
    (∀ (t : String) (v : Json), jsonLoads t = some v → safe_json_parse t = v) ∧
    (∀ t : String, jsonLoads t = none →
      safe_json_parse t =
        if pyFind t lbraceC ≠ -1 && pyRfind t rbraceC ≠ -1 &&
            pyFind t lbraceC < pyRfind t rbraceC then
          match jsonLoads (pySlice t (pyFind t lbraceC)
              (pyRfind t rbraceC + 1)) with
          | some v => v
          | none => .obj []
        else .obj []) := by
  constructor
  · intro t v h
    unfold safe_json_parse
    split_ifs with ht
    · subst ht
      exact Option.noConfusion ((show jsonLoads "" = none from rfl).symm.trans h)
    · rw [h]
  · intro t h
    by_cases ht : t = ""
    · subst ht
      rfl
    · unfold safe_json_parse
      rw [if_neg ht, h]

/-- Witness for C7 as amended: a directly parseable document is returned as
parsed; a prefixed document goes through the brace slice. -/
theorem c7_safe_json_parse_amended_witness :
    safe_json_parse "\x7b\"a\": 1\x7d" = .obj [("a", .num 1)] ∧
    safe_json_parse "pfx \x7b\"b\": 2\x7d" =
      (if pyFind "pfx \x7b\"b\": 2\x7d" lbraceC ≠ -1 &&
          pyRfind "pfx \x7b\"b\": 2\x7d" rbraceC ≠ -1 &&
          pyFind "pfx \x7b\"b\": 2\x7d" lbraceC <
            pyRfind "pfx \x7b\"b\": 2\x7d" rbraceC then
        match jsonLoads (pySlice "pfx \x7b\"b\": 2\x7d"
            (pyFind "pfx \x7b\"b\": 2\x7d" lbraceC)
            (pyRfind "pfx \x7b\"b\": 2\x7d" rbraceC + 1)) with
        | some v => v
        | none => .obj []
      else .obj []) :=
  ⟨c7_safe_json_parse_amended.1 "\x7b\"a\": 1\x7d" (.obj [("a", .num 1)]) rfl,
   c7_safe_json_parse_amended.2 "pfx \x7b\"b\": 2\x7d" rfl⟩

/-- Embeds `_run_with_retries` returns the empty record when every attempt in the
retry window fails. -/
theorem runWithRetriesAux_all_none (att : Nat → Option String) :
    ∀ (k i : Nat), (∀ j, i ≤ j → j < i + k → att j = none) →
      runWithRetriesAux att i k = .obj [] := by
  intro k
  induction k with
  | zero => intro i _; rfl
  | succ n ih =>
    intro i h
    unfold runWithRetriesAux
    rw [h i (le_refl i) (by omega)]
    exact ih (i + 1) (fun j hj1 hj2 => h j (by omega) (by omega))

/-- When the provider result is falsy, `extract_fields` returns its state. -/
theorem extract_fields_falsy (o : Oracle) (s : ConversationState)
    (m : Option String)
    (h : jsonTruthy (runWithRetries (o.attempts m) o.maxRetries) = false) :
    extract_fields o s m = .ok s := by
  unfold extract_fields
  simp [h]

/-- C4 counterexample: the claim says the pipeline never raises to its
caller, but a provider completion `[1]` parses to a truthy non-object, and
`ExtractionFields(**raw_output)` then raises `TypeError`, which
`extract_fields` does not catch (it catches only `ValidationError`). -/
theorem c4_nonobject_output_raises_cex :
    extract_fields badJsonO askNameS (some "Ada here") = .error .typeError := by
  decide

/-- C4 as amended: in the three claimed failure modes the pipeline does
return the state with no field changed — when every bounded retry fails,
when the provider text yields no (truthy) parse, and when an object record
fails schema enforcement. But it is not exception-free: a provider text
parsing to a truthy non-object value raises `TypeError` to the caller
(see the counterexample). -/
theorem c4_extract_degrades_amended :
    (∀ (o : Oracle) (s : ConversationState) (m : Option String),
      (∀ i, 1 ≤ i → i ≤ o.maxRetries → o.attempts m i = none) →
      extract_fields o s m = .ok s) ∧
    (∀ (o : Oracle) (s : ConversationState) (m : Option String),
      jsonTruthy (runWithRetries (o.attempts m) o.maxRetries) = false →
      extract_fields o s m = .ok s) ∧
    (∀ (o : Oracle) (s : ConversationState) (m : Option String)
      (kvs : List (String × Json)),
      runWithRetries (o.attempts m) o.maxRetries = .obj kvs →
      mkExtractionFields kvs = none →
      extract_fields o s m = .ok s) := by
  refine ⟨?_, ?_, ?_⟩
  · intro o s m h
    have hr : runWithRetries (o.attempts m) o.maxRetries = .obj [] :=
      runWithRetriesAux_all_none (o.attempts m) o.maxRetries 1
        (fun j hj1 hj2 => h j hj1 (by omega))
    exact extract_fields_falsy o s m (by rw [hr]; rfl)
  · exact extract_fields_falsy
  · intro o s m kvs hr hmk
    unfold extract_fields
    rw [hr]
    by_cases ht : jsonTruthy (Json.obj kvs)
    · simp [ht, hmk]
    · simp [ht]

/-- Witness for C4 as amended: a provider that times out on both attempts,
and one that returns an object with a numeric `name`, both leave the state
untouched. -/
theorem c4_extract_degrades_amended_witness :
    extract_fields baseO askNameS (some "Ada here") = .ok askNameS ∧
    extract_fields badSchemaO askNameS (some "Ada here") = .ok askNameS :=
  ⟨c4_extract_degrades_amended.1 baseO askNameS (some "Ada here")
     (fun _ _ _ => rfl),
   c4_extract_degrades_amended.2.2 badSchemaO askNameS (some "Ada here")
     [("name", .num 5)] rfl rfl⟩

/-- A truthy optional string is not the empty string. -/
theorem optStrTruthy_ne_empty (x : Option String) (h : optStrTruthy x = true) :
    x ≠ some "" := by
  cases x with
  | none => simp [optStrTruthy] at h
  | some v =>
    intro hv
    rw [hv] at h
    simp [optStrTruthy] at h

/-- A non-null, non-empty optional string is truthy. -/
theorem optStrTruthy_of_ne (x : Option String) (h1 : x ≠ none)
    (h2 : x ≠ some "") : optStrTruthy x = true := by
  cases x with
  | none => exact absurd rfl h1
  | some v =>
    simp only [optStrTruthy, decide_eq_true_eq]
    intro hv
    exact h2 (by rw [hv])

/-- The name slot after `mergeSlots`. -/
theorem mergeSlots_name (s : ConversationState) (n t : Option String)
    (d : Option PyDateTime) :
    (mergeSlots s n t d).name =
      if optStrTruthy n && !optStrTruthy s.name then n else s.name := by
  simp only [mergeSlots]
  split_ifs <;> rfl

/-- The datetime slot after `mergeSlots`. -/
theorem mergeSlots_datetime (s : ConversationState) (n t : Option String)
    (d : Option PyDateTime) :
    (mergeSlots s n t d).meeting_datetime =
      if d.isSome && s.meeting_datetime.isNone then d
      else s.meeting_datetime := by
  simp only [mergeSlots]
  split_ifs <;> rfl

/-- The title slot after `mergeSlots`. -/
theorem mergeSlots_title (s : ConversationState) (n t : Option String)
    (d : Option PyDateTime) :
    (mergeSlots s n t d).meeting_title =
      if optStrTruthy t && !optStrTruthy s.meeting_title then t
      else s.meeting_title := by
  simp only [mergeSlots]
  split_ifs <;> rfl

/-- First-write-wins at the pipeline level: under `SlotInv`, a run of
`extract_fields` never changes a non-null slot, and `SlotInv` is
preserved. -/
theorem extract_fields_slots (o : Oracle) (s : ConversationState)
    (m : Option String) (s' : ConversationState) (hs : SlotInv s)
    (h : extract_fields o s m = .ok s') :
    (s.name ≠ none → s'.name = s.name) ∧
    (s.meeting_datetime ≠ none → s'.meeting_datetime = s.meeting_datetime) ∧
    (s.meeting_title ≠ none → s'.meeting_title = s.meeting_title) ∧
    SlotInv s' := by
  unfold extract_fields at h
  split at h
  · cases h; exact ⟨fun _ => rfl, fun _ => rfl, fun _ => rfl, hs⟩
  · split at h
    · next kvs =>
      split at h
      · cases h; exact ⟨fun _ => rfl, fun _ => rfl, fun _ => rfl, hs⟩
      · next fields _ =>
        split at h
        · exact Except.noConfusion h
        · next mdt heq =>
          cases h
          have ha := applyConfirmation_frame s fields.confirmation_status
          have haname := ha.2.2.2.2.2.2.1
          have hadt := ha.2.2.2.2.2.2.2.1
          have hatitle := ha.2.2.2.2.2.2.2.2
          refine ⟨?_, ?_, ?_, ?_, ?_⟩
          · intro hn
            rw [mergeSlots_name, haname,
              optStrTruthy_of_ne s.name hn hs.1]
            simp
          · intro hd
            have hno : s.meeting_datetime.isNone = false := by
              cases hmd : s.meeting_datetime with
              | none => exact absurd hmd hd
              | some _ => rfl
            rw [mergeSlots_datetime, hadt, hno]
            simp
          · intro ht
            rw [mergeSlots_title, hatitle,
              optStrTruthy_of_ne s.meeting_title ht hs.2]
            simp
          · rw [mergeSlots_name, haname]
            split_ifs with hc
            · exact optStrTruthy_ne_empty _ (Bool.and_elim_left hc)
            · exact hs.1
          · rw [mergeSlots_title, hatitle]
            split_ifs with hc
            · exact optStrTruthy_ne_empty _ (Bool.and_elim_left hc)
            · exact hs.2
    · exact Except.noConfusion h

/-- Case analysis for an `if` that produced an `ok` result. -/
theorem eq_ok_cases {α : Type} {c : Prop} [Decidable c]
    {x y : Except PyErr α} {r : α}
    (h : (if c then x else y) = .ok r) : x = .ok r ∨ y = .ok r := by
  split_ifs at h
  · exact Or.inl h
  · exact Or.inr h

/-- Slot preservation for `start_node`: it never touches a slot. -/
theorem start_node_slots (o : Oracle) (s s' : ConversationState)
    (hs : SlotInv s) (h : start_node o s = .ok s') :
    ((s.name ≠ none → s'.name = s.name) ∧
     (s.meeting_datetime ≠ none → s'.meeting_datetime = s.meeting_datetime) ∧
     (s.meeting_title ≠ none → s'.meeting_title = s.meeting_title)) ∧
    SlotInv s' := by
  unfold start_node at h
  rcases eq_ok_cases h with h | h <;> cases h <;>
    exact ⟨⟨fun _ => rfl, fun _ => rfl, fun _ => rfl⟩, hs⟩

/-- Slot preservation for `ask_name_node`: it extracts and then only sets
the message and step. -/
theorem ask_name_node_slots (o : Oracle) (s s' : ConversationState)
    (hs : SlotInv s) (h : ask_name_node o s = .ok s') :
    ((s.name ≠ none → s'.name = s.name) ∧
     (s.meeting_datetime ≠ none → s'.meeting_datetime = s.meeting_datetime) ∧
     (s.meeting_title ≠ none → s'.meeting_title = s.meeting_title)) ∧
    SlotInv s' := by
  unfold ask_name_node at h
  cases he : extract_fields o s s.last_user_message with
  | error e => rw [he] at h; exact Except.noConfusion h
  | ok s1 =>
    rw [he] at h
    dsimp only at h
    have hx := extract_fields_slots o s s.last_user_message s1 hs he
    rcases eq_ok_cases h with h | h <;> cases h <;>
      exact ⟨⟨hx.1, hx.2.1, hx.2.2.1⟩, hx.2.2.2⟩

/-- Slot preservation for `ask_datetime_node`. -/
theorem ask_datetime_node_slots (o : Oracle) (s s' : ConversationState)
    (hs : SlotInv s) (h : ask_datetime_node o s = .ok s') :
    ((s.name ≠ none → s'.name = s.name) ∧
     (s.meeting_datetime ≠ none → s'.meeting_datetime = s.meeting_datetime) ∧
     (s.meeting_title ≠ none → s'.meeting_title = s.meeting_title)) ∧
    SlotInv s' := by
  unfold ask_datetime_node at h
  cases he : extract_fields o s s.last_user_message with
  | error e => rw [he] at h; exact Except.noConfusion h
  | ok s1 =>
    rw [he] at h
    dsimp only at h
    have hx := extract_fields_slots o s s.last_user_message s1 hs he
    rcases eq_ok_cases h with h | h <;> cases h <;>
      exact ⟨⟨hx.1, hx.2.1, hx.2.2.1⟩, hx.2.2.2⟩

/-- Slot preservation for `ask_title_node`. -/
theorem ask_title_node_slots (o : Oracle) (s s' : ConversationState)
    (hs : SlotInv s) (h : ask_title_node o s = .ok s') :
    ((s.name ≠ none → s'.name = s.name) ∧
     (s.meeting_datetime ≠ none → s'.meeting_datetime = s.meeting_datetime) ∧
     (s.meeting_title ≠ none → s'.meeting_title = s.meeting_title)) ∧
    SlotInv s' := by
  unfold ask_title_node at h
  cases he : extract_fields o s s.last_user_message with
  | error e => rw [he] at h; exact Except.noConfusion h
  | ok s1 =>
    rw [he] at h
    dsimp only at h
    have hx := extract_fields_slots o s s.last_user_message s1 hs he
    rcases eq_ok_cases h with h | h <;> cases h <;>
      exact ⟨⟨hx.1, hx.2.1, hx.2.2.1⟩, hx.2.2.2⟩

/-- Slot preservation for `confirm_details_node`: it never touches a slot. -/
theorem confirm_details_node_slots (o : Oracle) (s s' : ConversationState)
    (hs : SlotInv s) (h : confirm_details_node o s = .ok s') :
    ((s.name ≠ none → s'.name = s.name) ∧
     (s.meeting_datetime ≠ none → s'.meeting_datetime = s.meeting_datetime) ∧
     (s.meeting_title ≠ none → s'.meeting_title = s.meeting_title)) ∧
    SlotInv s' := by
  unfold confirm_details_node at h
  cases h
  exact ⟨⟨fun _ => rfl, fun _ => rfl, fun _ => rfl⟩, hs⟩

/-- Slot preservation for `await_confirmation_node`: it extracts after
clearing the confirmation slot and then only sets message, step and the
confirmed flag. -/
theorem await_confirmation_node_slots (o : Oracle) (s s' : ConversationState)
    (hs : SlotInv s) (h : await_confirmation_node o s = .ok s') :
    ((s.name ≠ none → s'.name = s.name) ∧
     (s.meeting_datetime ≠ none → s'.meeting_datetime = s.meeting_datetime) ∧
     (s.meeting_title ≠ none → s'.meeting_title = s.meeting_title)) ∧
    SlotInv s' := by
  unfold await_confirmation_node at h
  cases he : extract_fields o { s with confirmation_status := none }
      s.last_user_message with
  | error e => rw [he] at h; exact Except.noConfusion h
  | ok s1 =>
    rw [he] at h
    dsimp only at h
    have hx := extract_fields_slots o { s with confirmation_status := none }
      s.last_user_message s1 hs he
    rcases eq_ok_cases h with h | h
    · rcases eq_ok_cases h with h | h <;> cases h <;>
        exact ⟨⟨hx.1, hx.2.1, hx.2.2.1⟩, hx.2.2.2⟩
    · rcases eq_ok_cases h with h | h <;> cases h <;>
        exact ⟨⟨hx.1, hx.2.1, hx.2.2.1⟩, hx.2.2.2⟩

/-- Embeds `handle_new_loop_node` either clears all three slots together (on a yes
intent) or preserves every non-null slot. -/
theorem handle_new_loop_node_slots (o : Oracle) (s s' : ConversationState)
    (hs : SlotInv s) (h : handle_new_loop_node o s = .ok s') :
    ((s'.name = none ∧ s'.meeting_datetime = none ∧ s'.meeting_title = none) ∨
     ((s.name ≠ none → s'.name = s.name) ∧
      (s.meeting_datetime ≠ none → s'.meeting_datetime = s.meeting_datetime) ∧
      (s.meeting_title ≠ none → s'.meeting_title = s.meeting_title))) ∧
    SlotInv s' := by
  unfold handle_new_loop_node at h
  cases he : extract_fields o { s with confirmation_status := none }
      s.last_user_message with
  | error e => rw [he] at h; exact Except.noConfusion h
  | ok s1 =>
    rw [he] at h
    dsimp only at h
    have hx := extract_fields_slots o { s with confirmation_status := none }
      s.last_user_message s1 hs he
    rcases eq_ok_cases h with h | h
    · cases h
      refine ⟨Or.inl ⟨rfl, rfl, rfl⟩, ?_, ?_⟩ <;> exact fun hc => Option.noConfusion hc
    · rcases eq_ok_cases h with h | h <;> cases h <;>
        exact ⟨Or.inr ⟨hx.1, hx.2.1, hx.2.2.1⟩, hx.2.2.2⟩

/-- C6: slot monotonicity. `SlotInv` (no slot ever holds the empty string —
see its docstring; it holds initially and is preserved everywhere, so
"non-null" coincides with Python-truthy on reachable states) is carried
through every part. Under it: (1) the initial state satisfies the
invariant; (2) a run of the extraction pipeline never changes a non-null
slot; (3) every handler other than `HANDLE_NEW_LOOP` preserves every
non-null slot; (4) `handle_new_loop_node` either preserves them or — on the
yes intent — clears name, datetime and title together. -/
theorem c6_first_write_wins :
    SlotInv initialState ∧
    (∀ (o : Oracle) (s : ConversationState) (m : Option String)
      (s' : ConversationState), SlotInv s → extract_fields o s m = .ok s' →
      (s.name ≠ none → s'.name = s.name) ∧
      (s.meeting_datetime ≠ none → s'.meeting_datetime = s.meeting_datetime) ∧
      (s.meeting_title ≠ none → s'.meeting_title = s.meeting_title) ∧
      SlotInv s') ∧
    (∀ (o : Oracle) (node : String) (s s' : ConversationState),
      SlotInv s → runNode o node s = .ok s' → node ≠ "HANDLE_NEW_LOOP" →
      ((s.name ≠ none → s'.name = s.name) ∧
       (s.meeting_datetime ≠ none → s'.meeting_datetime = s.meeting_datetime) ∧
       (s.meeting_title ≠ none → s'.meeting_title = s.meeting_title)) ∧
      SlotInv s') ∧
    (∀ (o : Oracle) (s s' : ConversationState),
      SlotInv s → handle_new_loop_node o s = .ok s' →
      ((s'.name = none ∧ s'.meeting_datetime = none ∧ s'.meeting_title = none) ∨
       ((s.name ≠ none → s'.name = s.name) ∧
        (s.meeting_datetime ≠ none → s'.meeting_datetime = s.meeting_datetime) ∧
        (s.meeting_title ≠ none → s'.meeting_title = s.meeting_title))) ∧
      SlotInv s') := by
  refine ⟨⟨by decide, by decide⟩, extract_fields_slots, ?_,
    handle_new_loop_node_slots⟩
  intro o node s s' hs h hnot
  unfold runNode at h
  split_ifs at h with h1 h2 h3 h4 h5 h6
  · exact start_node_slots o s s' hs h
  · exact ask_name_node_slots o s s' hs h
  · exact ask_datetime_node_slots o s s' hs h
  · exact ask_title_node_slots o s s' hs h
  · exact confirm_details_node_slots o s s' hs h
  · exact await_confirmation_node_slots o s s' hs h

/-- Witness for C6 at a provider that does extract a valid name ("Jo")
against a state whose name slot is already "Bob": nothing changes. -/
theorem c6_first_write_wins_witness :
    (namedS.name ≠ none → namedS.name = namedS.name) ∧
    (namedS.meeting_datetime ≠ none →
      namedS.meeting_datetime = namedS.meeting_datetime) ∧
    (namedS.meeting_title ≠ none →
      namedS.meeting_title = namedS.meeting_title) ∧
    SlotInv namedS :=
  c6_first_write_wins.2.1 nameO namedS (some "hello") namedS
    ⟨by decide, by decide⟩ rfl

/-- C10: when `handle_new_loop_node` classifies the intent as yes (the only
branch that stores step "ASK_NAME"), it clears the three slots and the
confirmation slot, sets `is_confirmed` to false and the step to "ASK_NAME",
and leaves `timezone`, `google_access_token` and `last_user_message` as they
were. -/
theorem c10_new_loop_reset_frame (o : Oracle) (s s' : ConversationState)
    (h : handle_new_loop_node o s = .ok s') (hstep : s'.step = "ASK_NAME") :
    s'.name = none ∧ s'.meeting_datetime = none ∧ s'.meeting_title = none ∧
    s'.confirmation_status = none ∧ s'.is_confirmed = some false ∧
    s'.step = "ASK_NAME" ∧
    s'.timezone = s.timezone ∧
    s'.google_access_token = s.google_access_token ∧
    s'.last_user_message = s.last_user_message := by
  unfold handle_new_loop_node at h
  cases he : extract_fields o { s with confirmation_status := none }
      s.last_user_message with
  | error e => rw [he] at h; exact Except.noConfusion h
  | ok s1 =>
    rw [he] at h
    dsimp only at h
    have hf := extract_fields_frame o { s with confirmation_status := none }
      s.last_user_message s1 he
    rcases eq_ok_cases h with h | h
    · cases h
      exact ⟨rfl, rfl, rfl, rfl, rfl, rfl, hf.2.1, hf.2.2.2.2.1, hf.2.2.1⟩
    · rcases eq_ok_cases h with h | h <;> cases h <;> simp at hstep

/-- Witness for C10: a yes-classifying provider against a fully filled
session resets exactly as the claim says. -/
theorem c10_new_loop_reset_frame_witness :
    loopResetS.name = none ∧ loopResetS.meeting_datetime = none ∧
    loopResetS.meeting_title = none ∧ loopResetS.confirmation_status = none ∧
    loopResetS.is_confirmed = some false ∧ loopResetS.step = "ASK_NAME" ∧
    loopResetS.timezone = loopS.timezone ∧
    loopResetS.google_access_token = loopS.google_access_token ∧
    loopResetS.last_user_message = loopS.last_user_message :=
  c10_new_loop_reset_frame yesO loopS loopResetS rfl rfl

/-- C2 counterexample: a session in ASK_TITLE whose utterance yields a valid
title runs TWO handlers in the one turn — `ask_title_node`, then
`confirm_details_node` through the conditional edge of
`workflow.py:85-92` — against the claim that exactly one step handler
executes and that no ASK_TITLE → CONFIRM_DETAILS cascade happens within a
single invocation. -/
theorem c2_two_handlers_in_one_turn_cex :
    (conversationGraphRun titleO titleS).map Prod.snd =
      .ok ["ASK_TITLE", "CONFIRM_DETAILS"] := by decide

/-- C2 as amended: each turn executes exactly the entry handler selected by
`route_start` — except when the entry is ASK_TITLE and the handler stores
step CONFIRM_DETAILS, in which case exactly the two handlers ASK_TITLE and
CONFIRM_DETAILS run, in that order. -/
theorem c2_one_handler_except_cascade (o : Oracle) (s s' : ConversationState)
    (l : List String) (h : conversationGraphRun o s = .ok (s', l)) :
    l = [route_start s] ∨
    (route_start s = "ASK_TITLE" ∧ l = ["ASK_TITLE", "CONFIRM_DETAILS"]) := by
  unfold conversationGraphRun at h
  cases hr : runNode o (route_start s) s with
  | error e => rw [hr] at h; exact Except.noConfusion h
  | ok s1 =>
    rw [hr] at h
    dsimp only at h
    by_cases h1 : route_start s = "ASK_TITLE"
    · rw [if_pos h1] at h
      by_cases h2 : next_step_router s1 = "CONFIRM_DETAILS"
      · rw [if_pos h2] at h
        cases hc : confirm_details_node o s1 with
        | error e => rw [hc] at h; exact Except.noConfusion h
        | ok s2 =>
          rw [hc] at h
          dsimp only at h
          cases h
          exact Or.inr ⟨h1, by rw [h1]⟩
      · rw [if_neg h2] at h
        by_cases h3 : next_step_router s1 = "ASK_TITLE"
        · rw [if_pos h3] at h
          cases h
          exact Or.inl rfl
        · rw [if_neg h3] at h
          exact Except.noConfusion h
    · rw [if_neg h1] at h
      cases h
      exact Or.inl rfl

/-- Witness for C2 as amended at the first turn of a fresh session: the one
handler executed is the START handler. -/
theorem c2_one_handler_except_cascade_witness :
    [("START" : String)] = [route_start initialState] ∨
    (route_start initialState = "ASK_TITLE" ∧
      [("START" : String)] = ["ASK_TITLE", "CONFIRM_DETAILS"]) :=
  c2_one_handler_except_cascade baseO initialState greetedS ["START"] rfl

/-- C3 counterexample: when the turn faults (here: the provider returns the
non-object JSON `[1]`, so `extract_fields` raises `TypeError` inside the
graph), `run_step` returns the state exactly as it was — its step is still
"ASK_NAME", not "START", and no apology message is set. -/
theorem c3_failure_leaves_state_cex :
    conversationGraphRun badJsonO askNameS = .error .typeError ∧
    run_step badJsonO askNameS = askNameS ∧
    askNameS.step = "ASK_NAME" ∧ askNameS.system_message = none :=
  ⟨by decide, by decide, rfl, rfl⟩

/-- C3 as amended: on any internal graph failure, `run_step` swallows the
exception and returns the input state unchanged — the step is not reset to
START and no apology message is composed. -/
theorem c3_run_step_swallows (o : Oracle) (s : ConversationState) (e : PyErr)
    (h : conversationGraphRun o s = .error e) : run_step o s = s := by
  unfold run_step
  rw [h]

/-- Witness for C3 as amended: the TypeError-raising provider against an
ASK_TITLE session. -/
theorem c3_run_step_swallows_witness : run_step badJsonO titleS = titleS :=
  c3_run_step_swallows badJsonO titleS .typeError rfl
